import Mathlib

/-!
Shallow embedding of `src/libluavars.c` (libluavars): a Lua bridge to an
out-of-process variable server.  Lua stack effects are modelled as the list
of values a C entry point pushes together with the count it returns; the
external `libvarserver` RPC surface is modelled as a record of abstract
functions (it is an external collaborator, not part of this repository).
Calls made to the collaborator and to libc are recorded in an event trace so
that ordering and "was this call attempted" properties can be stated.
-/

set_option autoImplicit false

namespace Luavars

/-- Invalid variable handle sentinel (`VAR_INVALID` from the varserver
headers), modelled as 0. -/
def VAR_INVALID : Nat := 0

/-- Success return code (`EOK`), modelled as 0; any other value is an errno
style error code. -/
def EOK : Nat := 0

/-- Lua values, restricted to what the bridge pushes/reads: nil, numbers
(modelled as integers) and strings. -/
inductive LuaValue where
  | nil : LuaValue
  | num : Int → LuaValue
  | str : String → LuaValue
deriving DecidableEq, Repr

/-- Variable types of the varserver tagged union (`VarType`). -/
inductive VarType where
  | vstr : VarType
  | vint16 : VarType
  | vuint16 : VarType
  | vint32 : VarType
  | vuint32 : VarType
  | vint64 : VarType
  | vuint64 : VarType
  | vfloat : VarType
deriving DecidableEq, Repr

/-- A `VarObject`: the type tag plus the union payload fields used by the
bridge (`val.str`, `val.i`, `val.ui`, `val.l`, `val.ul`, `val.ll`,
`val.ull`, `val.f`).  Numeric payloads are modelled as integers; the float
payload is likewise carried as an integer-valued number since no claim
computes with it. -/
structure VarObject where
  type : VarType
  str : String
  i : Int
  ui : Nat
  l : Int
  ul : Nat
  ll : Int
  ull : Nat
  f : Int
deriving DecidableEq, Repr

/-- Events recorded by the embedding: calls into the external varserver
client library and the libc stream release. -/
inductive Event where
  | findByName : String → Event
  | getVar : Nat → Event
  | getType : Nat → Event
  | setStr : Nat → VarType → String → Event
  | getValidationRequest : Nat → Event
  | sendValidationResponse : Nat → Nat → Event
  | closePrintSession : Nat → Nat → Event
  | fcloseStream : Option Nat → Event
deriving DecidableEq, Repr

/-- Abstract model of the external varserver client library (`VAR_*`
functions): each RPC is a synchronous total function.  `Option` results
model the EOK / error return: `none` is a non-EOK status with no output.
`closePrintSession` returns its full numeric status code because the bridge
inspects it and feeds it to `strerror`. -/
structure Server where
  findByName : String → Nat
  getVar : Nat → Option VarObject
  getType : Nat → Option VarType
  setStr : Nat → VarType → String → Bool
  getValidationRequest : Nat → Option (Nat × VarObject)
  sendValidationResponse : Nat → Nat → Bool
  openPrintSession : Nat → Option (Nat × Nat)
  closePrintSession : Nat → Nat → Nat

/-- Result of one bridge entry point: the values pushed on the Lua stack in
push order, the count the C function returns, and the trace of external
calls it made. -/
structure LuaCallResult where
  pushed : List LuaValue
  nres : Nat
  trace : List Event
deriving DecidableEq, Repr

/-- The values a Lua caller actually receives: the top `nres` entries of
what was pushed, in stack order. -/
def luaReturnVals (r : LuaCallResult) : List LuaValue :=
  (r.pushed.reverse.take r.nres).reverse

/-- The first value the Lua caller observes; a call returning zero values
reads as nil at the call site. -/
def firstResult (r : LuaCallResult) : LuaValue :=
  (luaReturnVals r).headD LuaValue.nil

/-- First observed value of a possibly-erroring call (`none` models a
raised Lua argument error). -/
def firstResultO : Option LuaCallResult → Option LuaValue
  | none => none
  | some r => some (firstResult r)

/-- `luaL_checklstring`: accepts a string argument, coerces a number to its
decimal string (as `lua_tolstring` does), and raises (`none`) on nil. -/
def checklstring : LuaValue → Option String
  | LuaValue.str s => some s
  | LuaValue.num n => some (toString n)
  | LuaValue.nil => none

/-- `luaL_checknumber`: accepts a number argument; other values raise.
(Coercion of numeric strings is not modelled; no bridge call site relies
on it.) -/
def checknumber : LuaValue → Option Int
  | LuaValue.num n => some n
  | LuaValue.str _ => none
  | LuaValue.nil => none

/-- Embedding of `var_get` (libluavars.c:252).  The single argument is
passed through `luaL_checklstring`, resolved with `VAR_FindByName`, fetched
with `VAR_Get`, and rendered for the four supported types; every other
outcome pushes nil with a return count of 0. -/
def var_get (srv : Server) (arg : LuaValue) : Option LuaCallResult :=
  match checklstring arg with
  | none => none
  | some name =>
    let hVar := srv.findByName name
    if hVar ≠ VAR_INVALID then
      match srv.getVar hVar with
      | some var =>
        let tr := [Event.findByName name, Event.getVar hVar]
        match var.type with
        | VarType.vstr =>
            some ⟨[LuaValue.str var.str], 1, tr⟩
        | VarType.vuint16 =>
            some ⟨[LuaValue.num (Int.ofNat var.ui)], 1, tr⟩
        | VarType.vuint32 =>
            some ⟨[LuaValue.num (Int.ofNat var.ul)], 1, tr⟩
        | VarType.vfloat =>
            some ⟨[LuaValue.num var.f], 1, tr⟩
        | _ => some ⟨[LuaValue.nil], 0, tr⟩
      | none =>
        some ⟨[LuaValue.nil], 0, [Event.findByName name, Event.getVar hVar]⟩
    else
      some ⟨[LuaValue.nil], 0, [Event.findByName name]⟩

/-- Embedding of `var_find` (libluavars.c:415): resolves a name with
`VAR_FindByName`, pushes the handle on success, nil (with return count 0)
otherwise. -/
def var_find (srv : Server) (arg : LuaValue) : Option LuaCallResult :=
  match checklstring arg with
  | none => none
  | some name =>
    let hVar := srv.findByName name
    if hVar ≠ VAR_INVALID then
      some ⟨[LuaValue.num (Int.ofNat hVar)], 1, [Event.findByName name]⟩
    else
      some ⟨[LuaValue.nil], 0, [Event.findByName name]⟩

/-- The rendering `var_get` applies to a fetched `VarObject` at an
already-resolved handle: the four supported kinds produce a value, every
other kind (and a failed fetch) reads as nil.  Used to relate `var_get` to
the handle `var_find` returns. -/
def renderValue : Option VarObject → LuaValue
  | some var =>
    match var.type with
    | VarType.vstr => LuaValue.str var.str
    | VarType.vuint16 => LuaValue.num (Int.ofNat var.ui)
    | VarType.vuint32 => LuaValue.num (Int.ofNat var.ul)
    | VarType.vfloat => LuaValue.num var.f
    | _ => LuaValue.nil
  | none => LuaValue.nil

/-- Whether a trace contains an attempted `VAR_SetStr` call. -/
def setAttempted (tr : List Event) : Bool :=
  tr.any fun e =>
    match e with
    | Event.setStr _ _ _ => true
    | _ => false

/-- Embedding of `var_set` (libluavars.c:335).  A string first argument is
resolved via `VAR_FindByName`; a number first argument is taken directly as
the handle; any other first argument leaves the handle invalid.  With a
valid handle the type is fetched via `VAR_GetType` and the set attempted
via `VAR_SetStr`; the C function pushes 1 and returns 1 on success, pushes
nil and returns 0 on a failed set, pushes nothing and returns 0 on a failed
type query, and pushes nil and returns 0 on an invalid handle. -/
def var_set (srv : Server) (ref value : LuaValue) : Option LuaCallResult :=
  let resolved : Nat × List Event :=
    match ref with
    | LuaValue.str name => (srv.findByName name, [Event.findByName name])
    | LuaValue.num n => (n.toNat, [])
    | LuaValue.nil => (VAR_INVALID, [])
  match checklstring value with
  | none => none
  | some v =>
    let hVar := resolved.1
    if hVar ≠ VAR_INVALID then
      match srv.getType hVar with
      | some ty =>
        if srv.setStr hVar ty v then
          some ⟨[LuaValue.num 1], 1,
                resolved.2 ++ [Event.getType hVar, Event.setStr hVar ty v]⟩
        else
          some ⟨[LuaValue.nil], 0,
                resolved.2 ++ [Event.getType hVar, Event.setStr hVar ty v]⟩
      | none =>
        some ⟨[], 0, resolved.2 ++ [Event.getType hVar]⟩
    else
      some ⟨[LuaValue.nil], 0, resolved.2⟩

/-- Embedding of `var_validate_start` (libluavars.c:566): fetches the
pending validation request for the given transaction id via
`VAR_GetValidationRequest`.  On an error status nothing is pushed and the
return count is 0 (the caller observes nil); on success the handle is
pushed and the candidate value is rendered for all eight kinds of the
tagged union. -/
def var_validate_start (srv : Server) (arg : LuaValue) : Option LuaCallResult :=
  match checknumber arg with
  | none => none
  | some n =>
    let id := n.toNat
    match srv.getValidationRequest id with
    | none => some ⟨[], 0, [Event.getValidationRequest id]⟩
    | some (hVar, var) =>
      let tr := [Event.getValidationRequest id]
      let h := LuaValue.num (Int.ofNat hVar)
      match var.type with
      | VarType.vstr => some ⟨[h, LuaValue.str var.str], 2, tr⟩
      | VarType.vint16 => some ⟨[h, LuaValue.num var.i], 2, tr⟩
      | VarType.vuint16 => some ⟨[h, LuaValue.num (Int.ofNat var.ui)], 2, tr⟩
      | VarType.vint32 => some ⟨[h, LuaValue.num var.l], 2, tr⟩
      | VarType.vuint32 => some ⟨[h, LuaValue.num (Int.ofNat var.ul)], 2, tr⟩
      | VarType.vint64 => some ⟨[h, LuaValue.num var.ll], 2, tr⟩
      | VarType.vuint64 => some ⟨[h, LuaValue.num (Int.ofNat var.ull)], 2, tr⟩
      | VarType.vfloat => some ⟨[h, LuaValue.num var.f], 2, tr⟩

/-- The compile-time signal numbers the bridge uses: the four varserver
event signals (`SIG_VAR_MODIFIED`, `SIG_VAR_CALC`, `SIG_VAR_VALIDATE`,
`SIG_VAR_PRINT` from the varserver headers) and the platform `SIGRTMIN`
base.  Kept abstract since their concrete values live outside this
repository. -/
structure SigConfig where
  SIG_VAR_MODIFIED : Nat
  SIG_VAR_CALC : Nat
  SIG_VAR_VALIDATE : Nat
  SIG_VAR_PRINT : Nat
  SIGRTMIN : Nat

/-- The signal mask `var_wait` builds (libluavars.c:517): `SIGRTMIN+5` (the
timer notification) and the four event signals, added with `sigaddset` in
source order. -/
def waitMask (c : SigConfig) : List Nat :=
  [c.SIGRTMIN + 5, c.SIG_VAR_MODIFIED, c.SIG_VAR_CALC,
   c.SIG_VAR_PRINT, c.SIG_VAR_VALIDATE]

/-- Embedding of `var_wait` (libluavars.c:508).  `sigwaitinfo` is modelled
as a function from the blocked mask to the delivered pair (signal number,
`si_sigval.sival_int` payload); a failed wait is the pair (-1, payload).
The bridge pushes both numbers unconditionally and returns 2. -/
def var_wait (c : SigConfig) (sigwait : List Nat → Int × Int) : LuaCallResult :=
  let mask := waitMask c
  let delivered := sigwait mask
  ⟨[LuaValue.num delivered.1, LuaValue.num delivered.2], 2, []⟩

/-- The `LuaPrintSession` userdata (libluavars.c:76): the `luaL_Stream`
`FILE*` (modelled as `Option Nat`, `none` being NULL), the descriptor, the
session id and the variable handle. -/
structure LuaPrintSession where
  streamF : Option Nat
  fd : Nat
  id : Nat
  hVar : Nat
deriving DecidableEq, Repr

/-- The all-zero session produced by `memset(pLuaPrintSession, 0, ...)`. -/
def zeroSession : LuaPrintSession := ⟨none, 0, 0, 0⟩

/-- Opaque model of libc `strerror`: an injective rendering of the error
code as a description string. -/
def strerror (e : Nat) : String := "strerror:" ++ toString e

/-- Embedding of `var_close_print_session` (libluavars.c:782).  In source
order: `VAR_ClosePrintSession(hVarServer, id, fd)` first, then
`fclose(stream.f)`, then the object is zeroed; finally the bridge pushes 1
on an EOK status, and nil plus `strerror(result)` otherwise.  Returns the
call result together with the session object as the call leaves it. -/
def var_close_print_session (srv : Server) (s : LuaPrintSession) :
    LuaCallResult × LuaPrintSession :=
  let r := srv.closePrintSession s.id s.fd
  let tr := [Event.closePrintSession s.id s.fd, Event.fcloseStream s.streamF]
  if r = EOK then
    (⟨[LuaValue.num 1], 1, tr⟩, zeroSession)
  else
    (⟨[LuaValue.nil, LuaValue.str (strerror r)], 2, tr⟩, zeroSession)

/-- True when a trace's first event is the local stream release: the order
the spec prescribes for print-session close. -/
def firstEventIsLocalRelease : List Event → Bool
  | Event.fcloseStream _ :: _ => true
  | _ => false

/-- Embedding of the connection logic of `luaopen_libluavars`
(libluavars.c:187): the process-wide `hVarServer` (`none` = NULL) is
replaced by the result of `VARSERVER_Open()` only when it is NULL.  Returns
the new handle state and whether `VARSERVER_Open` was invoked. -/
def luaopen_libluavars (hVarServer : Option Nat) (openResult : Option Nat) :
    Option Nat × Bool :=
  match hVarServer with
  | some h => (some h, false)
  | none => (openResult, true)

/-- Embedding of `global_unload` (libluavars.c:160): `VARSERVER_Close` is
invoked when the handle is non-NULL; the handle variable itself is not
reset.  Returns the handle state after the call and whether
`VARSERVER_Close` was invoked. -/
def global_unload (hVarServer : Option Nat) : Option Nat × Bool :=
  match hVarServer with
  | some _ => (hVarServer, true)
  | none => (hVarServer, false)

/-!  Concrete collaborator models used by counterexamples and witnesses. -/

/-- A server whose every RPC fails: no variable resolves, no request is
pending, and the print-channel close reports error code 9 (`EBADF`). -/
def srvDead : Server where
  findByName := fun _ => 0
  getVar := fun _ => none
  getType := fun _ => none
  setStr := fun _ _ _ => false
  getValidationRequest := fun _ => none
  sendValidationResponse := fun _ _ => false
  openPrintSession := fun _ => none
  closePrintSession := fun _ _ => 9

/-- The spec's concrete scenario server: variable `"temperature"` has
handle 5 and uint16 value 21; no other name resolves (in particular no
variable is named by a handle's decimal string). -/
def srvTemp : Server where
  findByName := fun n => if n = "temperature" then 5 else 0
  getVar := fun h => if h = 5 then some ⟨VarType.vuint16, "", 0, 21, 0, 0, 0, 0, 0⟩ else none
  getType := fun h => if h = 5 then some VarType.vuint16 else none
  setStr := fun _ _ _ => true
  getValidationRequest := fun _ => none
  sendValidationResponse := fun _ _ => false
  openPrintSession := fun _ => none
  closePrintSession := fun _ _ => 0

/-- A server holding an int64 variable `"count"` with handle 3 and value
-4, both fetchable and pending as validation request 9. -/
def srvInt64 : Server where
  findByName := fun n => if n = "count" then 3 else 0
  getVar := fun h => if h = 3 then some ⟨VarType.vint64, "", 0, 0, 0, 0, -4, 0, 0⟩ else none
  getType := fun h => if h = 3 then some VarType.vint64 else none
  setStr := fun _ _ _ => true
  getValidationRequest := fun n =>
    if n = 9 then some (3, ⟨VarType.vint64, "", 0, 0, 0, 0, -4, 0, 0⟩) else none
  sendValidationResponse := fun _ _ => false
  openPrintSession := fun _ => none
  closePrintSession := fun _ _ => 0

/-- A server where `"w"` resolves to handle 8 but every type query fails. -/
def srvNoType : Server where
  findByName := fun n => if n = "w" then 8 else 0
  getVar := fun _ => none
  getType := fun _ => none
  setStr := fun _ _ _ => false
  getValidationRequest := fun _ => none
  sendValidationResponse := fun _ _ => false
  openPrintSession := fun _ => none
  closePrintSession := fun _ _ => 0

/-- A server whose print-channel close succeeds (EOK). -/
def srvPrintOk : Server where
  findByName := fun _ => 0
  getVar := fun _ => none
  getType := fun _ => none
  setStr := fun _ _ _ => false
  getValidationRequest := fun _ => none
  sendValidationResponse := fun _ _ => false
  openPrintSession := fun n => if n = 7 then some (2, 3) else none
  closePrintSession := fun _ _ => 0

/-- A live print session as `var_open_print_session` would build it for
transaction 7: stream over descriptor 3, rendering variable handle 2. -/
def sess7 : LuaPrintSession := ⟨some 3, 3, 7, 2⟩

/-!  Claim theorems. -/

/-- C1 counterexample: closing print session 7 against `srvPrintOk` emits
the server-side `VAR_ClosePrintSession` first and the local `fclose` second,
so the claimed order — local flush/release before informing the server — is
false at this concrete input. -/
theorem close_order_counterexample :
    (var_close_print_session srvPrintOk sess7).1.trace =
      [Event.closePrintSession 7 3, Event.fcloseStream (some 3)]
    ∧ firstEventIsLocalRelease
        (var_close_print_session srvPrintOk sess7).1.trace = false := by
  constructor
  · rfl
  · rfl

/-- C1 (amended): for every print-session close, the operation first
informs the server the rendering channel is finished
(`VAR_ClosePrintSession`) and only afterwards flushes and releases the
local writable stream (`fclose`), in that order. -/
theorem close_server_then_local_release (srv : Server) (s : LuaPrintSession) :
    (var_close_print_session srv s).1.trace =
      [Event.closePrintSession s.id s.fd, Event.fcloseStream s.streamF] := by
  unfold var_close_print_session
  by_cases h : srv.closePrintSession s.id s.fd = EOK <;> simp [h]

/-- C2: the local stream release (`fclose`) happens on every close,
whatever status the server-side close returns; and when that status is an
error, the caller receives nil plus the `strerror` description of that very
status. -/
theorem close_always_releases_locally (srv : Server) (s : LuaPrintSession) :
    Event.fcloseStream s.streamF ∈ (var_close_print_session srv s).1.trace
    ∧ (srv.closePrintSession s.id s.fd ≠ EOK →
        luaReturnVals (var_close_print_session srv s).1 =
          [LuaValue.nil,
           LuaValue.str (strerror (srv.closePrintSession s.id s.fd))]) := by
  constructor
  · unfold var_close_print_session
    by_cases h : srv.closePrintSession s.id s.fd = EOK <;> simp [h]
  · intro h
    unfold var_close_print_session
    simp [h, luaReturnVals]

/-- C2 witness: against `srvDead` (close status 9 ≠ EOK) the trace contains
the `fclose` of session 7's stream and the caller receives nil plus
`strerror 9`. -/
theorem close_always_releases_locally_witness :
    (Event.fcloseStream (some 3) ∈ (var_close_print_session srvDead sess7).1.trace
     ∧ luaReturnVals (var_close_print_session srvDead sess7).1 =
         [LuaValue.nil, LuaValue.str (strerror 9)]) :=
  ⟨(close_always_releases_locally srvDead sess7).1,
   (close_always_releases_locally srvDead sess7).2 (by decide)⟩

/-- C6: the code does not reject a second close of an already-invalidated
(zeroed) session object: it proceeds, calling `VAR_ClosePrintSession` with
the zeroed id 0 and descriptor 0 and then `fclose` on the NULL stream
pointer (undefined behaviour in C), instead of failing cleanly. -/
theorem double_close_operates_on_zeroed_session :
    var_close_print_session srvDead zeroSession =
      (⟨[LuaValue.nil, LuaValue.str (strerror 9)], 2,
        [Event.closePrintSession 0 0, Event.fcloseStream none]⟩,
       zeroSession) := by
  rfl

/-- C3: for a transaction id the server does not hold as a pending
validation, `validate_start` returns (as a total function, hence without
blocking in the bridge) with nothing pushed and count 0, so the caller
observes the "not found" absent-value sentinel (nil). -/
theorem validate_start_not_pending (srv : Server) (id : Nat)
    (h : srv.getValidationRequest id = none) :
    var_validate_start srv (LuaValue.num (Int.ofNat id)) =
      some ⟨[], 0, [Event.getValidationRequest id]⟩
    ∧ firstResultO (var_validate_start srv (LuaValue.num (Int.ofNat id))) =
        some LuaValue.nil := by
  have he : var_validate_start srv (LuaValue.num (Int.ofNat id)) =
      some ⟨[], 0, [Event.getValidationRequest id]⟩ := by
    unfold var_validate_start checknumber
    simp [h]
  exact ⟨he, by rw [he]; rfl⟩

/-- C3 witness: `srvTemp` holds no pending validation for id 7, and
`validate_start 7` yields the nil sentinel. -/
theorem validate_start_not_pending_witness :
    srvTemp.getValidationRequest 7 = none
    ∧ firstResultO (var_validate_start srvTemp (LuaValue.num (Int.ofNat 7))) =
        some LuaValue.nil :=
  ⟨by decide, (validate_start_not_pending srvTemp 7 (by decide)).2⟩

/-- C4 counterexample: on `srvTemp`, `find("temperature")` yields handle 5,
but `get` applied to that handle coerces it to the string "5" and looks it
up as a name, yielding nil — not the value 21 that `get("temperature")`
yields, so the claim is false at this input. -/
theorem find_then_get_by_handle_counterexample :
    firstResultO (var_find srvTemp (LuaValue.str "temperature")) =
      some (LuaValue.num 5)
    ∧ firstResultO (var_get srvTemp (LuaValue.num 5)) = some LuaValue.nil
    ∧ firstResultO (var_get srvTemp (LuaValue.str "temperature")) =
        some (LuaValue.num 21)
    ∧ some LuaValue.nil ≠ some (LuaValue.num 21) := by
  refine ⟨?_, ?_, ?_, ?_⟩ <;> decide

/-- C4 (amended): `get` accepts only a name (a handle argument is coerced
to its decimal string and looked up as a name); what holds is that
`get(name)` yields exactly the rendering of the server value fetched at the
very handle `find(name)` returns. -/
theorem get_by_name_matches_find_handle (srv : Server) (name : String) (h : Nat)
    (hfind : firstResultO (var_find srv (LuaValue.str name)) =
      some (LuaValue.num (Int.ofNat h))) :
    firstResultO (var_get srv (LuaValue.str name)) =
      some (renderValue (srv.getVar h)) := by
  unfold var_find checklstring at hfind
  by_cases hz : srv.findByName name = VAR_INVALID
  · simp [hz, firstResultO, firstResult, luaReturnVals] at hfind
  · simp [hz, firstResultO, firstResult, luaReturnVals] at hfind
    rw [hfind] at hz
    unfold var_get checklstring
    rcases hv : srv.getVar h with _ | var
    · simp [hfind, hz, hv, firstResultO, firstResult, luaReturnVals, renderValue]
    · rcases var with ⟨t, s, i, ui, l, ul, ll, ull, f⟩
      cases t <;>
        simp [hfind, hz, hv, firstResultO, firstResult, luaReturnVals, renderValue]

/-- C4 amended-claim witness: on `srvTemp`, `find("temperature")` yields
handle 5 and `get("temperature")` yields the rendering of the server value
at handle 5 (the number 21). -/
theorem get_by_name_matches_find_handle_witness :
    firstResultO (var_find srvTemp (LuaValue.str "temperature")) =
      some (LuaValue.num (Int.ofNat 5))
    ∧ firstResultO (var_get srvTemp (LuaValue.str "temperature")) =
        some (renderValue (srvTemp.getVar 5)) :=
  ⟨by decide, get_by_name_matches_find_handle srvTemp "temperature" 5 (by decide)⟩

/-- C5: whenever name resolution fails (`VAR_FindByName` yields
`VAR_INVALID`) or the `VAR_GetType` query fails — whether the reference was
a name or a raw handle — `set` leaves the caller with the nil fail sentinel
and never attempts `VAR_SetStr`. -/
theorem set_failure_attempts_no_set :
    (∀ (srv : Server) (name value : String),
      srv.findByName name = VAR_INVALID →
      ∃ r, var_set srv (LuaValue.str name) (LuaValue.str value) = some r
        ∧ firstResult r = LuaValue.nil ∧ setAttempted r.trace = false)
    ∧ (∀ (srv : Server) (h : Nat) (value : String),
      h ≠ VAR_INVALID →
      srv.getType h = none →
      ∃ r, var_set srv (LuaValue.num (Int.ofNat h)) (LuaValue.str value) = some r
        ∧ firstResult r = LuaValue.nil ∧ setAttempted r.trace = false)
    ∧ (∀ (srv : Server) (name value : String),
      srv.findByName name ≠ VAR_INVALID →
      srv.getType (srv.findByName name) = none →
      ∃ r, var_set srv (LuaValue.str name) (LuaValue.str value) = some r
        ∧ firstResult r = LuaValue.nil ∧ setAttempted r.trace = false) := by
  refine ⟨?_, ?_, ?_⟩
  · intro srv name value hf
    refine ⟨⟨[LuaValue.nil], 0, [Event.findByName name]⟩, ?_, rfl, rfl⟩
    unfold var_set checklstring
    simp [hf]
  · intro srv h value hne ht
    refine ⟨⟨[], 0, [Event.getType h]⟩, ?_, rfl, rfl⟩
    unfold var_set checklstring
    simp [hne, ht]
  · intro srv name value hne ht
    refine ⟨⟨[], 0, [Event.findByName name, Event.getType (srv.findByName name)]⟩,
      ?_, rfl, rfl⟩
    unfold var_set checklstring
    simp [hne, ht]

/-- C5 witness: against concrete servers, all three failure shapes — an
unresolvable name, a raw handle with a failing type query, and a resolvable
name with a failing type query — yield the nil sentinel with no attempted
set. -/
theorem set_failure_attempts_no_set_witness :
    (∃ r, var_set srvDead (LuaValue.str "x") (LuaValue.str "1") = some r
      ∧ firstResult r = LuaValue.nil ∧ setAttempted r.trace = false)
    ∧ (∃ r, var_set srvDead (LuaValue.num (Int.ofNat 4)) (LuaValue.str "1") = some r
      ∧ firstResult r = LuaValue.nil ∧ setAttempted r.trace = false)
    ∧ (∃ r, var_set srvNoType (LuaValue.str "w") (LuaValue.str "1") = some r
      ∧ firstResult r = LuaValue.nil ∧ setAttempted r.trace = false) :=
  ⟨set_failure_attempts_no_set.1 srvDead "x" "1" (by decide),
   set_failure_attempts_no_set.2.1 srvDead 4 "1" (by decide) (by decide),
   set_failure_attempts_no_set.2.2 srvNoType "w" "1" (by decide) (by decide)⟩

/-- C7: opening the library with the connection already open keeps the
existing handle and does not invoke `VARSERVER_Open` again; unloading
closes the connection but keeps the (now stale) handle; and an operation
issued against a connection on which every lookup fails (the collaborator's
behaviour once the connection is closed) returns the nil sentinel cleanly
rather than crashing. -/
theorem open_idempotent_and_post_close_fail_clean :
    (∀ (h : Nat) (openRes : Option Nat),
      luaopen_libluavars (some h) openRes = (some h, false))
    ∧ (∀ h : Nat, global_unload (some h) = (some h, true))
    ∧ (∀ (srv : Server) (name : String),
        (∀ s, srv.findByName s = VAR_INVALID) →
        firstResultO (var_get srv (LuaValue.str name)) = some LuaValue.nil) := by
  refine ⟨fun h o => rfl, fun h => rfl, ?_⟩
  intro srv name hdead
  unfold var_get checklstring
  simp [hdead, firstResultO, firstResult, luaReturnVals]

/-- C7 witness: a second open on handle 1 returns it unchanged without
reopening, unload closes but retains the handle, and `get` against the
all-failing `srvDead` yields nil. -/
theorem open_idempotent_and_post_close_fail_clean_witness :
    luaopen_libluavars (some 1) none = (some 1, false)
    ∧ global_unload (some 1) = (some 1, true)
    ∧ firstResultO (var_get srvDead (LuaValue.str "temperature")) =
        some LuaValue.nil :=
  ⟨open_idempotent_and_post_close_fail_clean.1 1 none,
   open_idempotent_and_post_close_fail_clean.2.1 1,
   open_idempotent_and_post_close_fail_clean.2.2 srvDead "temperature"
     (fun _ => rfl)⟩

/-- C8: the blocked set `wait` builds is exactly the four event signals
plus the fixed timer signal `SIGRTMIN+5`, independent of the delivered
event (hence identical across calls); and for every delivery the caller
receives the signal number together with the `sival_int` side payload as
two numbers.  The wait itself is the timeout-free `sigwaitinfo`, modelled
as a total function of the mask. -/
theorem wait_fixed_signal_set (c : SigConfig) (sigwait : List Nat → Int × Int) :
    (∀ s : Nat, s ∈ waitMask c ↔
      (s = c.SIG_VAR_MODIFIED ∨ s = c.SIG_VAR_CALC ∨ s = c.SIG_VAR_VALIDATE
       ∨ s = c.SIG_VAR_PRINT ∨ s = c.SIGRTMIN + 5))
    ∧ var_wait c sigwait =
        ⟨[LuaValue.num (sigwait (waitMask c)).1,
          LuaValue.num (sigwait (waitMask c)).2], 2, []⟩ := by
  constructor
  · intro s
    simp [waitMask]
    tauto
  · rfl

/-- C9: for every variable whose fetched kind is int16, int32, int64 or
uint64, a successful `VAR_Get` still leaves the `get` caller with nil,
while `validate_start` renders the same kinds into a two-value success. -/
theorem get_four_kinds_validate_eight :
    (∀ (srv : Server) (name : String) (v : VarObject),
      srv.findByName name ≠ VAR_INVALID →
      srv.getVar (srv.findByName name) = some v →
      (v.type = VarType.vint16 ∨ v.type = VarType.vint32
       ∨ v.type = VarType.vint64 ∨ v.type = VarType.vuint64) →
      firstResultO (var_get srv (LuaValue.str name)) = some LuaValue.nil)
    ∧ (∀ (srv : Server) (id hV : Nat) (v : VarObject),
      srv.getValidationRequest id = some (hV, v) →
      (v.type = VarType.vint16 ∨ v.type = VarType.vint32
       ∨ v.type = VarType.vint64 ∨ v.type = VarType.vuint64) →
      ∃ w : LuaValue,
        var_validate_start srv (LuaValue.num (Int.ofNat id)) =
          some ⟨[LuaValue.num (Int.ofNat hV), w], 2,
                [Event.getValidationRequest id]⟩) := by
  constructor
  · intro srv name v hf hv ht
    unfold var_get checklstring
    rcases ht with h1 | h1 | h1 | h1 <;>
      simp [hf, hv, h1, firstResultO, firstResult, luaReturnVals]
  · intro srv id hV v hreq ht
    unfold var_validate_start checknumber
    rcases ht with h1 | h1 | h1 | h1 <;> simp [hreq, h1]

/-- C9 witness: on `srvInt64`, `get("count")` (an int64 variable, fetch
succeeding) observes nil, while `validate_start 9` for the same variable
returns the handle and a value. -/
theorem get_four_kinds_validate_eight_witness :
    firstResultO (var_get srvInt64 (LuaValue.str "count")) = some LuaValue.nil
    ∧ (∃ w : LuaValue,
        var_validate_start srvInt64 (LuaValue.num (Int.ofNat 9)) =
          some ⟨[LuaValue.num (Int.ofNat 3), w], 2,
                [Event.getValidationRequest 9]⟩) :=
  ⟨get_four_kinds_validate_eight.1 srvInt64 "count"
     ⟨VarType.vint64, "", 0, 0, 0, 0, -4, 0, 0⟩ (by decide) (by decide)
     (Or.inr (Or.inr (Or.inl rfl))),
   get_four_kinds_validate_eight.2 srvInt64 9 3
     ⟨VarType.vint64, "", 0, 0, 0, 0, -4, 0, 0⟩ (by decide)
     (Or.inr (Or.inr (Or.inl rfl)))⟩

/-- C10: `wait` always returns exactly two values, both numbers and never
nil; in particular when the underlying `sigwaitinfo` fails, the caller
receives -1 as the signal number together with the payload, not an
error/absent result. -/
theorem wait_two_numbers_never_nil (c : SigConfig)
    (sigwait : List Nat → Int × Int) :
    (var_wait c sigwait).nres = 2
    ∧ (∃ a b : Int, luaReturnVals (var_wait c sigwait) =
        [LuaValue.num a, LuaValue.num b])
    ∧ (∀ p : Int,
        var_wait c (fun _ => (-1, p)) =
          ⟨[LuaValue.num (-1), LuaValue.num p], 2, []⟩) := by
  exact ⟨rfl,
         ⟨(sigwait (waitMask c)).1, (sigwait (waitMask c)).2, rfl⟩,
         fun p => rfl⟩

end Luavars
